import Mathlib

/-!
Verification of the TactilityClock application
(src/tactility-src/main/Clock.cpp) against its natural-language
specification.

The ESP-platform variant of `ClockApp` is embedded shallowly:

* the widget-handle fields of `ClockApp` become `Option Nat` slots in
  `ClockState` (a `Nat` is an abstract LVGL object identity; `none` is the
  null pointer written by `redraw_clock` / `onHide`);
* each call of `lock.lock(...)` (the LVGL sync lock, acquired once in
  `update_time_and_check_sync` and once in `redraw_clock`), the result of
  `is_time_synced()`, the result of `prefs.putBool` and the per-handle
  `lv_obj_is_valid` test are environmental inputs, collected in `TickEnv`;
* calls into the rendering toolkit and the preference store are recorded as
  an `Action` trace; a "full rebuild" is the `Action.rebuild` entry emitted
  by `redraw_clock` after `lv_obj_clean`;
* the floating-point geometry of `update_time_display` (lines 145-187) is
  embedded as exact rational / real arithmetic: angles and hand-length
  fractions over `ℚ`, hand endpoints over `ℝ` with `Real.cos` / `Real.sin`
  (the C code's `float`/`double` rounding and the truncating cast to
  `lv_coord_t` are idealized away).
-/

namespace Clock

/-- The three hands of the analog clock (`hour_hand`, `minute_hand`,
`second_hand` in `ClockApp`). -/
inductive Hand
  | hour
  | minute
  | second
deriving DecidableEq, Repr

/-- The widget subtrees `redraw_clock` can build: the Wi-Fi prompt card
(`create_wifi_prompt`), the digital clock (`create_digital_clock`) and the
analog clock (`create_analog_clock`). -/
inductive View
  | prompt
  | digital
  | analog
deriving DecidableEq, Repr

/-- Observable effects of the clock code on the rendering toolkit and the
preference store.  `rebuild v` stands for `lv_obj_clean(clock_container)`
followed by building the subtree for view `v`; the `set...` constructors
stand for `lv_label_set_text` / `lv_line_set_points` on the named handle;
`saveStore b` stands for `prefs.putBool("is_analog", b)` in `save_mode`. -/
inductive Action
  | rebuild (v : View)
  | setTimeText
  | setDateText
  | setWifiText
  | setHandPoints (h : Hand)
  | saveStore (b : Bool)
deriving DecidableEq, Repr

/-- The mutable fields of `ClockApp` relevant to the claims: the display
mode, the stored last-observed sync status, and the widget-handle slots.
`next_id` supplies fresh identities for newly created widgets, so that a
rebuild replaces handle identities. -/
structure ClockState where
  is_analog : Bool
  last_sync_status : Bool
  time_label : Option Nat
  clock_face : Option Nat
  hour_hand : Option Nat
  minute_hand : Option Nat
  second_hand : Option Nat
  wifi_label : Option Nat
  wifi_button : Option Nat
  date_label : Option Nat
  next_id : Nat
deriving DecidableEq, Repr

/-- Environmental inputs consumed by one invocation of the clock code:
`outerLock` is the result of the 50 ms lock acquisition at the top of
`update_time_and_check_sync`; `innerLock` is the result of the lock
acquisition at the top of `redraw_clock`; `sync` is the value of
`is_time_synced()`; `storeOk` is the outcome of the preference write in
`save_mode` (the code never inspects it); `valid` is `lv_obj_is_valid` on
handle identities. -/
structure TickEnv where
  outerLock : Bool
  innerLock : Bool
  sync : Bool
  storeOk : Bool
  valid : Nat → Bool

/-- A handle slot passes the C idiom `ptr && lv_obj_is_valid(ptr)`. -/
def okHandle (valid : Nat → Bool) : Option Nat → Bool
  | none => false
  | some h => valid h

/-- Embedding of `ClockApp::load_mode` (lines 76-80): `is_analog` is preset
to `false` and `prefs.optBool("is_analog", is_analog)` overwrites it only
when a persisted value exists. -/
def load_mode (stored : Option Bool) : Bool :=
  match stored with
  | some b => b
  | none => false

/-- Embedding of `ClockApp::update_time_display` (lines 139-197), the
incremental update: in analog mode (guarded by `clock_face` being present
and valid) each hand whose handle is present and valid gets its line points
re-set, and the date label, when present and valid, is rewritten; otherwise,
in digital mode, the time label, when present and valid, is rewritten. -/
def update_time_display (env : TickEnv) (s : ClockState) : List Action :=
  if s.is_analog && okHandle env.valid s.clock_face then
    (if okHandle env.valid s.hour_hand then [Action.setHandPoints Hand.hour] else []) ++
    (if okHandle env.valid s.minute_hand then [Action.setHandPoints Hand.minute] else []) ++
    (if okHandle env.valid s.second_hand then [Action.setHandPoints Hand.second] else []) ++
    (if okHandle env.valid s.date_label then [Action.setDateText] else [])
  else if !s.is_analog && okHandle env.valid s.time_label then
    [Action.setTimeText]
  else
    []

/-- Embedding of `ClockApp::create_wifi_prompt` (lines 223-276): creates the
prompt card with fresh `wifi_label` and `wifi_button` handles and writes the
initial label text. -/
def create_wifi_prompt (s : ClockState) : ClockState × List Action :=
  ({ s with
      wifi_label := some s.next_id
      wifi_button := some (s.next_id + 1)
      next_id := s.next_id + 2 },
   [Action.setWifiText])

/-- Embedding of `ClockApp::create_analog_clock` (lines 278-376): creates
fresh handles for the clock face, the three hands and the date label, then
initializes hand positions via `update_time_display`. -/
def create_analog_clock (env : TickEnv) (s : ClockState) : ClockState × List Action :=
  let s1 : ClockState :=
    { s with
        clock_face := some s.next_id
        hour_hand := some (s.next_id + 1)
        minute_hand := some (s.next_id + 2)
        second_hand := some (s.next_id + 3)
        date_label := some (s.next_id + 4)
        next_id := s.next_id + 5 }
  (s1, update_time_display env s1)

/-- Embedding of `ClockApp::create_digital_clock` (lines 378-430): creates
fresh `time_label` and `date_label` handles, writes the date text once
(lines 416-427), then calls `update_time_display`. -/
def create_digital_clock (env : TickEnv) (s : ClockState) : ClockState × List Action :=
  let s1 : ClockState :=
    { s with
        time_label := some s.next_id
        date_label := some (s.next_id + 1)
        next_id := s.next_id + 2 }
  (s1, Action.setDateText :: update_time_display env s1)

/-- Embedding of `ClockApp::redraw_clock` (lines 432-483), ESP variant: on
lock-acquisition failure it only logs and returns; otherwise it cleans the
container (nulling every child handle), then builds the Wi-Fi prompt when
not synced, else the analog or digital clock according to `is_analog`. -/
def redraw_clock (env : TickEnv) (s : ClockState) : ClockState × List Action :=
  if !env.innerLock then
    (s, [])
  else
    let s1 : ClockState :=
      { s with
          time_label := none
          clock_face := none
          hour_hand := none
          minute_hand := none
          second_hand := none
          wifi_label := none
          wifi_button := none
          date_label := none }
    if !env.sync then
      let p := create_wifi_prompt s1
      (p.1, Action.rebuild View.prompt :: p.2)
    else if s1.is_analog then
      let p := create_analog_clock env s1
      (p.1, Action.rebuild View.analog :: p.2)
    else
      let p := create_digital_clock env s1
      (p.1, Action.rebuild View.digital :: p.2)

/-- Embedding of `ClockApp::update_time_and_check_sync` (lines 101-128), the
body of the single periodic timer: on lock timeout the cycle is skipped;
otherwise, if the freshly queried sync status differs from
`last_sync_status`, the new status is recorded and `redraw_clock` is called;
if unchanged and unsynced, only the Wi-Fi label text is refreshed; if
unchanged and synced, `update_time_display` runs. -/
def update_time_and_check_sync (env : TickEnv) (s : ClockState) : ClockState × List Action :=
  if !env.outerLock then
    (s, [])
  else if env.sync != s.last_sync_status then
    redraw_clock env { s with last_sync_status := env.sync }
  else if !env.sync then
    (s, if okHandle env.valid s.wifi_label then [Action.setWifiText] else [])
  else
    (s, update_time_display env s)

/-- Embedding of `ClockApp::toggle_mode` (lines 87-94): flips `is_analog`,
persists it via `save_mode` (whose outcome the code ignores), then calls
`redraw_clock`. -/
def toggle_mode (env : TickEnv) (s : ClockState) : ClockState × List Action :=
  let s1 : ClockState := { s with is_analog := !s.is_analog }
  let p := redraw_clock env s1
  (p.1, Action.saveStore s1.is_analog :: p.2)

/-- Runs a sequence of periodic timer invocations (line 529 starts the timer
with `update_time_and_check_sync` as its body), threading the state and
concatenating the action traces. -/
def runTicks : List TickEnv → ClockState → ClockState × List Action
  | [], s => (s, [])
  | e :: es, s =>
      ((runTicks es (update_time_and_check_sync e s).1).1,
       (update_time_and_check_sync e s).2 ++
         (runTicks es (update_time_and_check_sync e s).1).2)

/-- Whether an action is a full rebuild. -/
def isRebuild : Action → Bool
  | Action.rebuild _ => true
  | _ => false

/-- Number of full rebuilds in an action trace. -/
def rebuildCount (as : List Action) : Nat :=
  as.countP (fun a => isRebuild a)

/-- Number of distinct sync-status transitions observed over a sequence of
timer invocations, starting from a stored status `last`: an invocation
observes the status only when its outer lock acquisition succeeds, and a
transition is counted when the observed value differs from the stored one
(which is then updated). -/
def observedTransitions : List TickEnv → Bool → Nat
  | [], _ => 0
  | e :: es, last =>
      if e.outerLock && (e.sync != last) then
        1 + observedTransitions es e.sync
      else
        observedTransitions es last

/-- The period, in milliseconds, passed to `timer->start` in `onShow`
(line 529): a single periodic activity at 1000 ms drives both the sync check
and the time update. -/
def timerPeriodMs : Nat := 1000

/-- Sync status as named by the specification. -/
inductive SyncStatus
  | Unsynced
  | Synced
deriving DecidableEq, Repr

/-- Display mode as named by the specification. -/
inductive DisplayMode
  | Digital
  | Analog
deriving DecidableEq, Repr

/-- The `bool` returned by `is_time_synced()` read as a `SyncStatus`. -/
def syncOfBool (b : Bool) : SyncStatus :=
  if b then SyncStatus.Synced else SyncStatus.Unsynced

/-- The `is_analog` field read as a `DisplayMode`. -/
def modeOfBool (b : Bool) : DisplayMode :=
  if b then DisplayMode.Analog else DisplayMode.Digital

/-- Modelled from the spec: EffectivePresentation is WaitingForSync (the
prompt view) whenever SyncStatus is Unsynced, regardless of DisplayMode, and
otherwise equals DisplayMode.  This definition follows the specification's
words and is compared against the branch structure of `redraw_clock`. -/
def effectivePresentation : SyncStatus → DisplayMode → View
  | SyncStatus.Unsynced, _ => View.prompt
  | SyncStatus.Synced, DisplayMode.Digital => View.digital
  | SyncStatus.Synced, DisplayMode.Analog => View.analog

/-- Hour-hand angle in degrees, from line 155:
`(timeinfo.tm_hour % 12 + timeinfo.tm_min / 60.0f) * 30.0f - 90`. -/
def hourAngle (hour min : Nat) : ℚ :=
  (((hour % 12 : Nat) : ℚ) + (min : ℚ) / 60) * 30 - 90

/-- Minute-hand angle in degrees, from line 156:
`timeinfo.tm_min * 6.0f - 90`. -/
def minuteAngle (min : Nat) : ℚ :=
  (min : ℚ) * 6 - 90

/-- Second-hand angle in degrees, from line 157:
`timeinfo.tm_sec * 6.0f - 90`. -/
def secondAngle (sec : Nat) : ℚ :=
  (sec : ℚ) * 6 - 90

/-- Hour-hand length, from line 151: `clock_size * 0.25`. -/
def hourLength (size : ℚ) : ℚ := size * (25 / 100)

/-- Minute-hand length, from line 152: `clock_size * 0.35`. -/
def minuteLength (size : ℚ) : ℚ := size * (35 / 100)

/-- Second-hand length, from line 153: `clock_size * 0.4`. -/
def secondLength (size : ℚ) : ℚ := size * (40 / 100)

/-- Endpoint of a hand of length `len` at angle `θ` degrees from a center
`(cx, cy)`: `center + length * (cos θ, sin θ)` with the angle converted to
radians, as in lines 162-163 (`center_x + length * cos(angle * M_PI / 180)`
and the matching `sin` for y). -/
noncomputable def handEndpoint (cx cy len : ℚ) (θ : ℚ) : ℝ × ℝ :=
  ((cx : ℝ) + (len : ℝ) * Real.cos ((θ : ℝ) * Real.pi / 180),
   (cy : ℝ) + (len : ℝ) * Real.sin ((θ : ℝ) * Real.pi / 180))

/-- The hour-hand tip computed by `update_time_display` (lines 162-163) for
a clock face of width `size`: the center is `(size/2, size/2)` (lines
147-148) and the tip is center plus the hour length times the cosine/sine of
the hour angle in radians. -/
noncomputable def hourHandTip (size : ℚ) (hour min : Nat) : ℝ × ℝ :=
  ((size / 2 : ℚ) + (hourLength size : ℝ) * Real.cos ((hourAngle hour min : ℝ) * Real.pi / 180),
   (size / 2 : ℚ) + (hourLength size : ℝ) * Real.sin ((hourAngle hour min : ℝ) * Real.pi / 180))

/-- The minute-hand tip computed by lines 170-171. -/
noncomputable def minuteHandTip (size : ℚ) (min : Nat) : ℝ × ℝ :=
  ((size / 2 : ℚ) + (minuteLength size : ℝ) * Real.cos ((minuteAngle min : ℝ) * Real.pi / 180),
   (size / 2 : ℚ) + (minuteLength size : ℝ) * Real.sin ((minuteAngle min : ℝ) * Real.pi / 180))

/-- The second-hand tip computed by lines 178-179. -/
noncomputable def secondHandTip (size : ℚ) (sec : Nat) : ℝ × ℝ :=
  ((size / 2 : ℚ) + (secondLength size : ℝ) * Real.cos ((secondAngle sec : ℝ) * Real.pi / 180),
   (size / 2 : ℚ) + (secondLength size : ℝ) * Real.sin ((secondAngle sec : ℝ) * Real.pi / 180))

/-- A validity oracle under which every handle identity is valid. -/
def allValid : Nat → Bool := fun _ => true

/-- The state right after `onShow` on a device whose clock is not yet
synced, in digital mode, before any widget has been created. -/
def initState : ClockState :=
  { is_analog := false
    last_sync_status := false
    time_label := none
    clock_face := none
    hour_hand := none
    minute_hand := none
    second_hand := none
    wifi_label := none
    wifi_button := none
    date_label := none
    next_id := 0 }

/-- A timer invocation that observes a sync transition but whose
`redraw_clock` lock acquisition fails. -/
def envTransInnerFail : TickEnv :=
  { outerLock := true, innerLock := false, sync := true,
    storeOk := true, valid := allValid }

/-- A timer invocation that observes a sync transition with both lock
acquisitions succeeding. -/
def envTransOk : TickEnv :=
  { outerLock := true, innerLock := true, sync := true,
    storeOk := true, valid := allValid }

/-- An invocation whose preference write succeeds. -/
def envStoreOk : TickEnv :=
  { outerLock := true, innerLock := true, sync := true,
    storeOk := true, valid := allValid }

/-- An invocation whose preference write fails; otherwise identical to
`envStoreOk`. -/
def envStoreFail : TickEnv :=
  { outerLock := true, innerLock := true, sync := true,
    storeOk := false, valid := allValid }

/-- An analog-mode state whose hour-hand handle (identity 1) has been
invalidated while the face, the other hands and the date label remain
valid. -/
def staleHourState : ClockState :=
  { is_analog := true
    last_sync_status := true
    time_label := none
    clock_face := some 0
    hour_hand := some 1
    minute_hand := some 2
    second_hand := some 3
    wifi_label := none
    wifi_button := none
    date_label := some 4
    next_id := 5 }

/-- A validity oracle under which exactly handle identity 1 is invalid. -/
def invalidOne : Nat → Bool := fun n => !(n == 1)

/-- An invocation seeing a synced clock, all locks succeeding, with handle
identity 1 invalid. -/
def envInvalidOne : TickEnv :=
  { outerLock := true, innerLock := true, sync := true,
    storeOk := true, valid := invalidOne }

/-- A timer invocation whose outer lock acquisition times out. -/
def envOuterFail : TickEnv :=
  { outerLock := false, innerLock := true, sync := true,
    storeOk := true, valid := allValid }

/-- An invocation on an unsynced clock with all locks succeeding. -/
def envUnsyncedAnalogRebuild : TickEnv :=
  { outerLock := true, innerLock := true, sync := false,
    storeOk := true, valid := allValid }

/-- A digital-mode state with a synced stored status and live time and date
labels (identities 0 and 1). -/
def digitalLiveState : ClockState :=
  { is_analog := false
    last_sync_status := true
    time_label := some 0
    clock_face := none
    hour_hand := none
    minute_hand := none
    second_hand := none
    wifi_label := none
    wifi_button := none
    date_label := some 1
    next_id := 2 }

/-- An analog-mode state with a synced stored status and no live widgets. -/
def analogState : ClockState :=
  { is_analog := true
    last_sync_status := true
    time_label := none
    clock_face := none
    hour_hand := none
    minute_hand := none
    second_hand := none
    wifi_label := none
    wifi_button := none
    date_label := none
    next_id := 0 }

theorem rebuildCount_append (a b : List Action) :
    rebuildCount (a ++ b) = rebuildCount a + rebuildCount b := by
  simp [rebuildCount, List.countP_append]

theorem rebuildCount_update_time_display (env : TickEnv) (s : ClockState) :
    rebuildCount (update_time_display env s) = 0 := by
  unfold update_time_display
  split_ifs <;> rfl

theorem countP_isRebuild_utd (env : TickEnv) (s : ClockState) :
    List.countP (fun a => isRebuild a) (update_time_display env s) = 0 :=
  rebuildCount_update_time_display env s

theorem redraw_clock_last_sync (env : TickEnv) (s : ClockState) :
    (redraw_clock env s).1.last_sync_status = s.last_sync_status := by
  cases hI : env.innerLock <;> cases hS : env.sync <;> cases hA : s.is_analog <;>
    simp [redraw_clock, create_wifi_prompt, create_analog_clock,
      create_digital_clock, hI, hS, hA]

theorem rebuildCount_nil : rebuildCount [] = 0 := rfl

theorem rebuildCount_cons (a : Action) (l : List Action) :
    rebuildCount (a :: l) = rebuildCount l + (if isRebuild a then 1 else 0) := by
  simp [rebuildCount, List.countP_cons]

theorem rebuildCount_redraw_clock (env : TickEnv) (s : ClockState)
    (h : env.innerLock = true) :
    rebuildCount (redraw_clock env s).2 = 1 := by
  cases hS : env.sync <;> cases hA : s.is_analog <;>
    simp [redraw_clock, create_wifi_prompt, create_analog_clock,
      create_digital_clock, h, hS, hA, rebuildCount_cons, rebuildCount_nil,
      rebuildCount_update_time_display,
      show ∀ v, isRebuild (Action.rebuild v) = true from fun _ => rfl,
      show isRebuild Action.setWifiText = false from rfl,
      show isRebuild Action.setDateText = false from rfl]

theorem tick_last_sync (env : TickEnv) (s : ClockState) :
    (update_time_and_check_sync env s).1.last_sync_status =
      if env.outerLock && (env.sync != s.last_sync_status) then env.sync
      else s.last_sync_status := by
  cases ho : env.outerLock <;> cases hS : env.sync <;>
      cases hL : s.last_sync_status <;>
    simp [update_time_and_check_sync, ho, hS, hL, redraw_clock_last_sync]

theorem tick_rebuilds (env : TickEnv) (s : ClockState)
    (h : env.innerLock = true) :
    rebuildCount (update_time_and_check_sync env s).2 =
      if env.outerLock && (env.sync != s.last_sync_status) then 1 else 0 := by
  cases ho : env.outerLock <;> cases hS : env.sync <;>
      cases hL : s.last_sync_status <;>
    simp [update_time_and_check_sync, ho, hS, hL,
      rebuildCount_redraw_clock _ _ h, rebuildCount_update_time_display,
      rebuildCount_nil, rebuildCount_cons,
      show isRebuild Action.setWifiText = false from rfl] <;>
    split_ifs <;> simp [rebuildCount_nil, rebuildCount_cons,
      show isRebuild Action.setWifiText = false from rfl]

theorem redraw_clock_is_analog (env : TickEnv) (s : ClockState) :
    (redraw_clock env s).1.is_analog = s.is_analog := by
  cases hI : env.innerLock <;> cases hS : env.sync <;> cases hA : s.is_analog <;>
    simp [redraw_clock, create_wifi_prompt, create_analog_clock,
      create_digital_clock, hI, hS, hA]

theorem redraw_clock_head (env : TickEnv) (s : ClockState)
    (hi : env.innerLock = true) :
    (redraw_clock env s).2.head? =
      some (Action.rebuild
        (effectivePresentation (syncOfBool env.sync)
          (modeOfBool s.is_analog))) := by
  cases hS : env.sync <;> cases hA : s.is_analog <;>
    simp [redraw_clock, create_wifi_prompt, create_analog_clock,
      create_digital_clock, hi, hS, hA, effectivePresentation, syncOfBool,
      modeOfBool]

/-- Claim C1 (amended): over any sequence of periodic invocations in which
every `redraw_clock` lock acquisition succeeds, the number of full rebuilds
performed equals the number of distinct Unsynced-to-Synced or
Synced-to-Unsynced transitions observed; an invocation observing an
unchanged status triggers none. -/
theorem C1_rebuilds_eq_observed_transitions (envs : List TickEnv)
    (s : ClockState) (h : ∀ e ∈ envs, e.innerLock = true) :
    rebuildCount (runTicks envs s).2 =
      observedTransitions envs s.last_sync_status := by
  induction envs generalizing s with
  | nil => rfl
  | cons e es ih =>
      have he : e.innerLock = true := h e (List.mem_cons_self e es)
      have hes : ∀ x ∈ es, x.innerLock = true :=
        fun x hx => h x (List.mem_cons_of_mem e hx)
      show rebuildCount ((update_time_and_check_sync e s).2 ++
            (runTicks es (update_time_and_check_sync e s).1).2) =
          observedTransitions (e :: es) s.last_sync_status
      rw [rebuildCount_append, tick_rebuilds e s he,
        ih (update_time_and_check_sync e s).1 hes, tick_last_sync e s]
      by_cases hc : (e.outerLock && (e.sync != s.last_sync_status)) = true
      · simp [observedTransitions, hc, Nat.add_comm]
      · simp [observedTransitions, hc]

/-- Claim C1 witness: two invocations, the first observing an
Unsynced-to-Synced transition, the second an unchanged status, perform
exactly as many rebuilds as transitions observed. -/
theorem C1_rebuilds_eq_observed_transitions_witness :
    rebuildCount (runTicks [envTransOk, envTransOk] initState).2 =
      observedTransitions [envTransOk, envTransOk]
        initState.last_sync_status :=
  C1_rebuilds_eq_observed_transitions [envTransOk, envTransOk] initState
    (by decide)

/-- Claim C1 counterexample: a single invocation that observes an
Unsynced-to-Synced transition but whose `redraw_clock` lock acquisition
fails performs zero rebuilds while one transition was observed, so the
rebuild count does not equal the transition count as the claim states. -/
theorem C1_counterexample :
    rebuildCount (runTicks [envTransInnerFail] initState).2 ≠
      observedTransitions [envTransInnerFail]
        initState.last_sync_status := by
  decide

/-- Claim C2 counterexample: the periodic check performs the full rebuild
itself.  The invocation of `update_time_and_check_sync` that observes the
Unsynced-to-Synced transition emits the rebuild within its own trace,
refuting the claim that the check only sets a handoff flag and leaves the
rebuild to a later fast tick (the code has no handoff flag and only one
timer). -/
theorem C2_counterexample :
    Action.rebuild View.digital ∈
      (update_time_and_check_sync envTransOk initState).2 := by
  decide

/-- Claim C2 (amended): a single periodic activity with period 1000 ms
drives both the sync check and the time update, and on a detected
sync-status transition that activity performs the full rebuild itself,
synchronously within the same invocation: when both lock acquisitions
succeed, the invocation's trace contains exactly one rebuild, placed at its
head, for the view matching the newly observed status. -/
theorem C2_sync_check_rebuilds_itself (env : TickEnv) (s : ClockState)
    (ho : env.outerLock = true) (hi : env.innerLock = true)
    (hne : env.sync ≠ s.last_sync_status) :
    timerPeriodMs = 1000 ∧
    rebuildCount (update_time_and_check_sync env s).2 = 1 ∧
    (update_time_and_check_sync env s).2.head? =
      some (Action.rebuild
        (effectivePresentation (syncOfBool env.sync)
          (modeOfBool s.is_analog))) := by
  have hb : (env.sync != s.last_sync_status) = true := by
    simpa using hne
  refine ⟨rfl, ?_, ?_⟩
  · rw [tick_rebuilds env s hi]
    simp [ho, hb]
  · have hu : update_time_and_check_sync env s =
        redraw_clock env { s with last_sync_status := env.sync } := by
      simp [update_time_and_check_sync, ho, hb]
    rw [hu, redraw_clock_head env _ hi]

/-- Claim C2 witness: a concrete transition invocation with both locks
succeeding rebuilds exactly once, within the same invocation, into the
digital view. -/
theorem C2_sync_check_rebuilds_itself_witness :
    timerPeriodMs = 1000 ∧
    rebuildCount (update_time_and_check_sync envTransOk initState).2 = 1 ∧
    (update_time_and_check_sync envTransOk initState).2.head? =
      some (Action.rebuild
        (effectivePresentation (syncOfBool envTransOk.sync)
          (modeOfBool initState.is_analog))) :=
  C2_sync_check_rebuilds_itself envTransOk initState rfl rfl (by decide)

/-- Claim C3 counterexample: a user toggle whose `redraw_clock` lock
acquisition fails performs zero rebuilds, refuting the claim that every
toggle produces exactly one rebuild regardless of the shared state. -/
theorem C3_counterexample :
    rebuildCount (toggle_mode envTransInnerFail initState).2 ≠ 1 := by
  decide

/-- Claim C3 (amended): a user toggle flips the mode and performs the
rebuild synchronously within the toggle operation, exactly once when the
guard acquisition succeeds (zero on a guard timeout), and in all cases it
leaves the stored last-observed sync status, the code's stand-in for a
pending-transition flag, unchanged (it does not consume a pending
transition). -/
theorem C3_toggle_rebuild (env : TickEnv) (s : ClockState) :
    (toggle_mode env s).1.is_analog = !s.is_analog ∧
    (toggle_mode env s).1.last_sync_status = s.last_sync_status ∧
    (env.innerLock = true → rebuildCount (toggle_mode env s).2 = 1) := by
  refine ⟨?_, ?_, fun hi => ?_⟩
  · simp [toggle_mode, redraw_clock_is_analog]
  · simp [toggle_mode, redraw_clock_last_sync]
  · simp [toggle_mode, rebuildCount_cons, rebuildCount_redraw_clock _ _ hi,
      show ∀ b, isRebuild (Action.saveStore b) = false from fun _ => rfl]

/-- Claim C3 witness: a concrete toggle with the guard succeeding flips the
mode to analog, rebuilds exactly once, and leaves the stored sync status
unchanged. -/
theorem C3_toggle_rebuild_witness :
    (toggle_mode envTransOk initState).1.is_analog = true ∧
    (toggle_mode envTransOk initState).1.last_sync_status = false ∧
    rebuildCount (toggle_mode envTransOk initState).2 = 1 := by
  have h := C3_toggle_rebuild envTransOk initState
  exact ⟨h.1.trans (by decide), h.2.1.trans (by decide), h.2.2 rfl⟩

/-- Claim C4 (confirmed): when the lock acquisition at the top of
`update_time_and_check_sync` times out, the invocation returns the state
unchanged in every field (widget-handle slots, stored sync status, mode)
with an empty effect trace, and a subsequent run continues exactly as if
the skipped invocation had never happened. -/
theorem C4_guard_timeout_noop (env : TickEnv) (s : ClockState)
    (es : List TickEnv) (h : env.outerLock = false) :
    update_time_and_check_sync env s = (s, []) ∧
    runTicks (env :: es) s = runTicks es s := by
  have h1 : update_time_and_check_sync env s = (s, []) := by
    simp [update_time_and_check_sync, h]
  exact ⟨h1, by simp [runTicks, h1]⟩

/-- Claim C4 witness: a concrete invocation with a failed outer lock is a
no-op and the following invocation proceeds as if it were first. -/
theorem C4_guard_timeout_noop_witness :
    update_time_and_check_sync envOuterFail initState = (initState, []) ∧
    runTicks [envOuterFail, envTransOk] initState =
      runTicks [envTransOk] initState :=
  C4_guard_timeout_noop envOuterFail initState [envTransOk] rfl

/-- Claim C5 (confirmed): whenever the guard acquisition succeeds, the
rebuild builds exactly the subtree determined by EffectivePresentation:
the prompt view whenever the status is Unsynced, regardless of display
mode, and otherwise the view matching the display mode. -/
theorem C5_rebuild_matches_effective_presentation (env : TickEnv)
    (s : ClockState) (hi : env.innerLock = true) :
    (redraw_clock env s).2.head? =
      some (Action.rebuild
        (effectivePresentation (syncOfBool env.sync)
          (modeOfBool s.is_analog))) ∧
    (env.sync = false →
      (redraw_clock env s).2.head? = some (Action.rebuild View.prompt)) := by
  refine ⟨redraw_clock_head env s hi, fun hs => ?_⟩
  rw [redraw_clock_head env s hi]
  simp [hs, syncOfBool, effectivePresentation]

/-- Claim C5 witness: a concrete rebuild in the unsynced state builds the
prompt view even though the stored mode is analog. -/
theorem C5_rebuild_matches_effective_presentation_witness :
    (redraw_clock envUnsyncedAnalogRebuild analogState).2.head? =
      some (Action.rebuild
        (effectivePresentation (syncOfBool envUnsyncedAnalogRebuild.sync)
          (modeOfBool analogState.is_analog))) ∧
    (redraw_clock envUnsyncedAnalogRebuild analogState).2.head? =
      some (Action.rebuild View.prompt) := by
  have h := C5_rebuild_matches_effective_presentation
    envUnsyncedAnalogRebuild analogState rfl
  exact ⟨h.1, h.2 rfl⟩

/-- Claim C6 (confirmed, over the idealized exact arithmetic of the float
formulas): the hour-hand angle is (hour mod 12 + minute/60) x 30 - 90
degrees, the minute- and second-hand angles are minute x 6 - 90 and
second x 6 - 90 degrees, the hand lengths are 0.25, 0.35 and 0.40 of the
dial size, each hand tip equals center + length x (cos t, sin t), and in
particular 3:00:00 gives hour angle 0 with minute and second angles -90,
6:30:00 gives hour angle 105, the 3:00:00 hour tip is horizontally right of
center by the hour length and the 3:00:00 minute tip is straight above
center by the minute length. -/
theorem C6_analog_geometry :
    hourAngle 3 0 = 0 ∧
    minuteAngle 0 = -90 ∧
    secondAngle 0 = -90 ∧
    hourAngle 6 30 = 105 ∧
    (∀ size : ℚ, hourLength size = size * (25 / 100) ∧
      minuteLength size = size * (35 / 100) ∧
      secondLength size = size * (40 / 100)) ∧
    (∀ (size : ℚ) (h m : Nat),
      hourHandTip size h m =
        handEndpoint (size / 2) (size / 2) (hourLength size)
          (hourAngle h m)) ∧
    (∀ (size : ℚ) (m : Nat),
      minuteHandTip size m =
        handEndpoint (size / 2) (size / 2) (minuteLength size)
          (minuteAngle m)) ∧
    (∀ (size : ℚ) (sec : Nat),
      secondHandTip size sec =
        handEndpoint (size / 2) (size / 2) (secondLength size)
          (secondAngle sec)) ∧
    (∀ size : ℚ, hourHandTip size 3 0 =
      (((size / 2 + hourLength size : ℚ) : ℝ), ((size / 2 : ℚ) : ℝ))) ∧
    (∀ size : ℚ, minuteHandTip size 0 =
      (((size / 2 : ℚ) : ℝ), ((size / 2 - minuteLength size : ℚ) : ℝ))) := by
  refine ⟨by norm_num [hourAngle], by norm_num [minuteAngle],
    by norm_num [secondAngle], by norm_num [hourAngle],
    fun size => ⟨rfl, rfl, rfl⟩,
    fun size h m => rfl, fun size m => rfl, fun size sec => rfl,
    fun size => ?_, fun size => ?_⟩
  · have h0 : hourAngle 3 0 = 0 := by norm_num [hourAngle]
    unfold hourHandTip
    rw [h0]
    push_cast
    simp [Real.cos_zero, Real.sin_zero]
  · have h0 : minuteAngle 0 = -90 := by norm_num [minuteAngle]
    have hrad : ((minuteAngle 0 : ℚ) : ℝ) * Real.pi / 180 =
        -(Real.pi / 2) := by
      rw [h0]
      push_cast
      ring
    unfold minuteHandTip
    rw [hrad]
    push_cast
    simp [Real.cos_neg, Real.sin_neg, Real.cos_pi_div_two,
      Real.sin_pi_div_two]
    ring

/-- Claim C7 counterexample: a storage-write failure is not reported to the
caller.  The entire caller-visible outcome of `toggle_mode` — the resulting
state and the effect trace — is identical whether the preference write
fails or succeeds (the code never inspects the write's outcome and
`toggle_mode` returns nothing), refuting the claim's "reported to the
caller" part. -/
theorem C7_counterexample :
    toggle_mode envStoreFail initState = toggle_mode envStoreOk initState := by
  decide

/-- Claim C7 (amended): `load_mode` returns the persisted display mode and
defaults to Digital (`is_analog = false`) when no value is stored;
`toggle_mode` flips the in-memory mode and issues the storage write
synchronously before the display rebuild; a storage-write failure is
silently ignored — it is not reported to the caller and does not prevent
the in-memory toggle from taking visual effect. -/
theorem C7_mode_preference (env : TickEnv) (s : ClockState) (b : Bool) :
    load_mode none = false ∧
    load_mode (some b) = b ∧
    (toggle_mode env s).1.is_analog = !s.is_analog ∧
    (toggle_mode env s).2 =
      Action.saveStore (!s.is_analog) ::
        (redraw_clock env { s with is_analog := !s.is_analog }).2 ∧
    toggle_mode { env with storeOk := b } s = toggle_mode env s := by
  refine ⟨rfl, rfl, ?_, rfl, rfl⟩
  simp [toggle_mode, redraw_clock_is_analog]

/-- Claim C8 counterexample: during an incremental update in which the
hour-hand handle is found invalid, the pass is not abandoned: it continues
and still mutates the minute hand, refuting the claim that an invalid
handle abandons the current pass with no further mutation. -/
theorem C8_counterexample :
    okHandle envInvalidOne.valid staleHourState.hour_hand = false ∧
    Action.setHandPoints Hand.minute ∈
      update_time_display envInvalidOne staleHourState := by
  decide

/-- Claim C8 (amended): in the incremental update every widget handle is
checked (non-null and `lv_obj_is_valid`) before it is used — a hand's
points, the time text or the date text are only ever set when the matching
handle passes its check — but an invalid handle only causes that handle's
own update to be skipped: the pass continues with the remaining handles
rather than being abandoned. -/
theorem C8_handle_checks (env : TickEnv) (s : ClockState) :
    (Action.setHandPoints Hand.hour ∈ update_time_display env s →
      okHandle env.valid s.hour_hand = true) ∧
    (Action.setHandPoints Hand.minute ∈ update_time_display env s →
      okHandle env.valid s.minute_hand = true) ∧
    (Action.setHandPoints Hand.second ∈ update_time_display env s →
      okHandle env.valid s.second_hand = true) ∧
    (Action.setTimeText ∈ update_time_display env s →
      okHandle env.valid s.time_label = true) ∧
    (Action.setDateText ∈ update_time_display env s →
      okHandle env.valid s.date_label = true) ∧
    (s.is_analog = true → okHandle env.valid s.clock_face = true →
      okHandle env.valid s.minute_hand = true →
      Action.setHandPoints Hand.minute ∈ update_time_display env s) := by
  refine ⟨?_, ?_, ?_, ?_, ?_, fun hA hF hM => ?_⟩
  all_goals unfold update_time_display
  · intro hmem; split_ifs at hmem <;> simp_all
  · intro hmem; split_ifs at hmem <;> simp_all
  · intro hmem; split_ifs at hmem <;> simp_all
  · intro hmem; split_ifs at hmem <;> simp_all
  · intro hmem; split_ifs at hmem <;> simp_all
  · simp [hA, hF, hM]

/-- Claim C8 witness: with the hour hand invalid but the face and minute
hand valid, the minute hand is still updated. -/
theorem C8_handle_checks_witness :
    Action.setHandPoints Hand.minute ∈
      update_time_display envInvalidOne staleHourState :=
  (C8_handle_checks envInvalidOne staleHourState).2.2.2.2.2 rfl rfl rfl

theorem tick_no_transition_no_rebuild (env : TickEnv) (s : ClockState)
    (h : env.sync = s.last_sync_status) :
    rebuildCount (update_time_and_check_sync env s).2 = 0 := by
  have hb : (env.sync != s.last_sync_status) = false := by simp [h]
  cases ho : env.outerLock <;> cases hsE : env.sync <;>
    simp [update_time_and_check_sync, ho, hb, hsE, rebuildCount_nil,
      rebuildCount_update_time_display] <;>
    split_ifs <;>
    simp_all [rebuildCount_nil, rebuildCount_cons,
      rebuildCount_update_time_display,
      show isRebuild Action.setWifiText = false from rfl]

/-- Claim C9 (confirmed): when the periodic check detects a status change,
the stored status is updated before the rebuild is attempted, so if the
rebuild's own lock acquisition fails the rebuild is skipped while the new
status stays recorded, and a later invocation that sees the unchanged
status performs no rebuild (only incremental work). -/
theorem C9_status_recorded_before_rebuild (env envNext : TickEnv)
    (s : ClockState) (ho : env.outerLock = true)
    (hi : env.innerLock = false) (hne : env.sync ≠ s.last_sync_status) :
    update_time_and_check_sync env s =
      ({ s with last_sync_status := env.sync }, []) ∧
    (envNext.sync = env.sync →
      rebuildCount
        (update_time_and_check_sync envNext
          (update_time_and_check_sync env s).1).2 = 0) := by
  have hb : (env.sync != s.last_sync_status) = true := by simpa using hne
  have h1 : update_time_and_check_sync env s =
      ({ s with last_sync_status := env.sync }, []) := by
    simp [update_time_and_check_sync, redraw_clock, ho, hb, hi]
  refine ⟨h1, fun hs => ?_⟩
  rw [h1]
  exact tick_no_transition_no_rebuild envNext _ (by simp [hs])

/-- Claim C9 witness: a transition invocation whose rebuild lock fails
records the new status with an empty trace, and the following invocation
seeing the same status performs zero rebuilds. -/
theorem C9_status_recorded_before_rebuild_witness :
    update_time_and_check_sync envTransInnerFail initState =
      ({ initState with last_sync_status := true }, []) ∧
    rebuildCount
      (update_time_and_check_sync envTransOk
        (update_time_and_check_sync envTransInnerFail initState).1).2 = 0 := by
  have h := C9_status_recorded_before_rebuild envTransInnerFail envTransOk
    initState rfl rfl (by decide)
  exact ⟨h.1, h.2 rfl⟩

/-- Claim C10 (confirmed): the Digital-mode incremental update rewrites at
most the time label's text and never the date label's, the date label's
text is written when the digital view is built, and only the Analog-mode
incremental update refreshes the date each tick. -/
theorem C10_digital_date_static (env : TickEnv) (s : ClockState) :
    (s.is_analog = false →
      Action.setDateText ∉ update_time_display env s ∧
      (update_time_display env s = [Action.setTimeText] ∨
        update_time_display env s = [])) ∧
    Action.setDateText ∈ (create_digital_clock env s).2 ∧
    (s.is_analog = true → okHandle env.valid s.clock_face = true →
      okHandle env.valid s.date_label = true →
      Action.setDateText ∈ update_time_display env s) := by
  refine ⟨fun hA => ?_, ?_, fun hA hF hD => ?_⟩
  · unfold update_time_display
    simp only [hA, Bool.false_and, Bool.false_eq_true, if_false,
      Bool.not_false, Bool.true_and]
    split_ifs <;> simp
  · simp [create_digital_clock]
  · simp [update_time_display, hA, hF, hD]

/-- Claim C10 witness: a live digital view's tick touches only the time
label, the digital build writes the date once, and an analog tick with a
valid date label refreshes the date. -/
theorem C10_digital_date_static_witness :
    (Action.setDateText ∉ update_time_display envStoreOk digitalLiveState ∧
      (update_time_display envStoreOk digitalLiveState =
          [Action.setTimeText] ∨
        update_time_display envStoreOk digitalLiveState = [])) ∧
    Action.setDateText ∈
      (create_digital_clock envStoreOk digitalLiveState).2 ∧
    Action.setDateText ∈ update_time_display envInvalidOne staleHourState := by
  have h1 := C10_digital_date_static envStoreOk digitalLiveState
  have h2 := C10_digital_date_static envInvalidOne staleHourState
  exact ⟨h1.1 rfl, h1.2.1, h2.2.2 rfl rfl rfl⟩

end Clock
